import Mathlib

/-!
# SignEase engagement core: a shallow embedding

This file embeds the progression engine (`Gamification` in
`static/js/gamification.js`), the analytics engine (`Analytics`), and the
detection-poll/dedup state machine (`ModeSwitcher` in `static/js/modes.js`)
of the SignEase repository, and proves (or refutes) the frozen claims about
them.

Modelling conventions:
* JavaScript numbers that the program only ever holds as non-negative
  integers (xp, level, streak, event counters) are `ℕ`; `Math.floor(x/100)`
  on such a value is `ℕ` division.
* Calendar dates (`toDateString()` values) are day indices in `ℤ`;
  "yesterday relative to `today`" is `today - 1`.
* Detection confidences are exact rationals `ℚ`; `Math.round` is
  `⌊x + 1/2⌋` (JavaScript rounds half toward +∞).
* `localStorage.getItem` returns either nothing, a string that parses to a
  record, or a string `JSON.parse` rejects.  `Stored α` abstracts the raw
  string: `absent` (getItem returned null), `valid d` (parses to `d`),
  `corrupt` (JSON.parse throws).  A load path with no try/catch is a
  function into `Except String _` whose error is the propagating exception.
* DOM rendering, weekday formatting and network transport are dropped;
  day labels are kept as the day index, and the outbound
  `addXP`/`trackSign` invocations of a poll tick are logged in the state so
  that "exactly one `addExperience(10)` call" is expressible.
-/

/-- JavaScript `Math.round`: round half toward positive infinity. -/
def jsRound (q : ℚ) : ℤ := ⌊q + 1/2⌋

/-- What `localStorage.getItem` handed back for a record key: nothing, a
string that `JSON.parse` turns into `a`, or a corrupted string that
`JSON.parse` throws on. -/
inductive Stored (α : Type) where
  | absent : Stored α
  | valid (a : α) : Stored α
  | corrupt : Stored α

/-- The persisted progression record (`signease_game`). -/
structure GameData where
  xp : ℕ
  level : ℕ
  streak : ℕ
  lastVisit : ℤ
  deriving DecidableEq

namespace Gamification

/-- `Gamification.getData`: return the parsed record if present; the
defaults (`xp: 0, level: 1, streak: 0, lastVisit: today`) if absent.  There
is no try/catch, so a record `JSON.parse` rejects propagates the exception. -/
def getData (st : Stored GameData) (today : ℤ) : Except String GameData :=
  match st with
  | .absent => .ok { xp := 0, level := 1, streak := 0, lastVisit := today }
  | .valid d => .ok d
  | .corrupt => .error "SyntaxError: JSON.parse"

/-- `Gamification.getLevel`: `Math.floor(xp / 100) + 1`. -/
def getLevel (xp : ℕ) : ℕ := xp / 100 + 1

/-- `Gamification.getXPForNextLevel`. -/
def getXPForNextLevel (level : ℕ) : ℕ := level * 100

/-- `Gamification.getProgress`: percentage into the current level band,
clamped to `[0, 100]` by `Math.min(Math.max(progress, 0), 100)`. -/
def getProgress (xp level : ℚ) : ℚ :=
  let currentLevelXP := (level - 1) * 100
  let nextLevelXP := level * 100
  let progress := ((xp - currentLevelXP) / (nextLevelXP - currentLevelXP)) * 100
  min (max progress 0) 100

/-- The state change of `Gamification.addXP` on an already-loaded record:
add the amount, recompute the level, and only write the level back when it
increased. -/
def addXPData (amount : ℕ) (d : GameData) : GameData :=
  let xp := d.xp + amount
  let newLevel := getLevel xp
  if d.level < newLevel then
    { d with xp := xp, level := newLevel }
  else
    { d with xp := xp }

/-- `Gamification.addXP` end to end: load (defaults when absent, exception
when corrupt), mutate, save. -/
def addXP (amount : ℕ) (st : Stored GameData) (today : ℤ) :
    Except String (Stored GameData) :=
  (getData st today).map fun d => .valid (addXPData amount d)

/-- The state change of `Gamification.updateStreak` on a loaded record:
increment on a yesterday visit, reset to 1 on any other different day,
leave alone on a same-day visit; always rewrite `lastVisit` to today. -/
def updateStreakData (today : ℤ) (d : GameData) : GameData :=
  let streak :=
    if d.lastVisit = today - 1 then d.streak + 1
    else if d.lastVisit ≠ today then 1
    else d.streak
  { d with streak := streak, lastVisit := today }

/-- `Gamification.updateStreak` end to end: load, mutate, save. -/
def updateStreak (today : ℤ) (st : Stored GameData) :
    Except String (Stored GameData) :=
  (getData st today).map fun d => .valid (updateStreakData today d)

end Gamification

/-- The persisted analytics record (`signease_analytics`).  `dailyProgress`
is a total function from day to count: the source's object lookup defaults
a missing date to 0 (`data.dailyProgress[dateStr] || 0`), and creation
initialises the entry at 0, so absent and 0 are indistinguishable. -/
structure AnalyticsData where
  totalSigns : ℕ
  correctSigns : ℕ
  practiceTime : ℕ
  dailyProgress : ℤ → ℕ
  sessionStart : ℤ

namespace Analytics

/-- `Analytics.getData`: the parsed record if present; the defaults
(`totalSigns: 0, correctSigns: 0, practiceTime: 0, dailyProgress: {},
sessionStart: Date.now()`) if absent.  No try/catch: a record `JSON.parse`
rejects propagates the exception. -/
def getData (st : Stored AnalyticsData) (now : ℤ) : Except String AnalyticsData :=
  match st with
  | .absent => .ok { totalSigns := 0, correctSigns := 0, practiceTime := 0,
                     dailyProgress := fun _ => 0, sessionStart := now }
  | .valid d => .ok d
  | .corrupt => .error "SyntaxError: JSON.parse"

/-- The state change of `Analytics.trackSign` on a loaded record: bump
`totalSigns`, bump `correctSigns` when the event is correct, and bump
today's entry of `dailyProgress` (created at 0 when absent). -/
def trackSignData (isCorrect : Bool) (today : ℤ) (d : AnalyticsData) :
    AnalyticsData :=
  { d with
    totalSigns := d.totalSigns + 1
    correctSigns := if isCorrect then d.correctSigns + 1 else d.correctSigns
    dailyProgress := Function.update d.dailyProgress today
      (d.dailyProgress today + 1) }

/-- `Analytics.trackSign` end to end: load, mutate, save. -/
def trackSign (isCorrect : Bool) (today now : ℤ) (st : Stored AnalyticsData) :
    Except String (Stored AnalyticsData) :=
  (getData st now).map fun d => .valid (trackSignData isCorrect today d)

/-- `Analytics.getAccuracy`: 0 when no events, otherwise
`Math.round(correctSigns / totalSigns * 100)`. -/
def getAccuracy (d : AnalyticsData) : ℤ :=
  if d.totalSigns = 0 then 0
  else jsRound ((d.correctSigns : ℚ) / (d.totalSigns : ℚ) * 100)

/-- `Analytics.getLast7Days`: for `i` from 6 down to 0 push the count for
the day `i` days before `now` (missing dates count 0) together with that
day's label; the day index stands in for the weekday string. -/
def getLast7Days (now : ℤ) (d : AnalyticsData) : List (ℕ × ℤ) :=
  ((List.range 7).reverse).map fun i =>
    (d.dailyProgress (now - (i : ℤ)), now - (i : ℤ))

end Analytics

/-- One `GET /latest` response: `sign` absent models a response whose
`sign` field is missing (falsy), `conf` is the reported confidence. -/
structure DetectionSample where
  sign : Option String
  conf : ℚ

/-- One committed transcript entry: the sign and the rounded confidence
percentage shown next to it. -/
structure TranscriptEntry where
  sign : String
  confPercent : ℤ
  deriving DecidableEq

/-- The session state touched by one poll tick of
`ModeSwitcher.startSignDetection`, with the outbound engine invocations
logged: `xpCalls` records each `Gamification.addXP(amount)` call and
`trackCalls` each `Analytics.trackSign(isCorrect)` call. -/
structure AppState where
  transcriptSigns : List String
  transcript : List TranscriptEntry
  game : GameData
  analytics : AnalyticsData
  xpCalls : List ℕ
  trackCalls : List Bool

namespace ModeSwitcher

/-- The session state right after `startSignDetection` initialises
`transcriptSigns` to an empty set, over the given persisted engine states. -/
def startState (g : GameData) (a : AnalyticsData) : AppState :=
  { transcriptSigns := [], transcript := [], game := g, analytics := a,
    xpCalls := [], trackCalls := [] }

/-- One poll tick of `startSignDetection`: if a sign is present and
`conf >= 0.75` the label is rendered, and additionally when
`Math.round(conf * 100) >= 80` and the sign is not yet in
`transcriptSigns` the detection is committed — a transcript entry is
prepended (list capped at 20), `Gamification.addXP(10)` and
`Analytics.trackSign(true)` run, and the sign joins `transcriptSigns`.
Rendering is dropped; everything else is per the source. -/
def pollTick (today : ℤ) (s : AppState) (sample : DetectionSample) : AppState :=
  match sample.sign with
  | none => s
  | some sign =>
    if (3 : ℚ)/4 ≤ sample.conf then
      let conf := jsRound (sample.conf * 100)
      if 80 ≤ conf ∧ sign ∉ s.transcriptSigns then
        { s with
          transcript := List.take 20 (⟨sign, conf⟩ :: s.transcript)
          game := Gamification.addXPData 10 s.game
          analytics := Analytics.trackSignData true today s.analytics
          xpCalls := s.xpCalls ++ [10]
          trackCalls := s.trackCalls ++ [true]
          transcriptSigns := s.transcriptSigns ++ [sign] }
      else s
    else s

/-- A whole polling run: fold `pollTick` over the samples the detector
returned, one per tick. -/
def pollRun (today : ℤ) (s : AppState) (samples : List DetectionSample) :
    AppState :=
  samples.foldl (pollTick today) s

end ModeSwitcher

/-- `clearTranscript()` (modes.js, top level): empties the on-screen
transcript and `ModeSwitcher.transcriptSigns`; the persisted engine states
and the call logs are untouched. -/
def clearTranscript (s : AppState) : AppState :=
  { s with transcript := [], transcriptSigns := [] }

/-- Whether one poll tick from `s` to `s'` committed the detection
`(sign, confPct)`: a transcript entry appended under the 20-entry cap, the
sign added to the dedup set, one `addXP(10)` call and one
`trackSign(true)` call logged. -/
def committed (s s' : AppState) (sign : String) (confPct : ℤ) : Prop :=
  s'.transcript = List.take 20 (⟨sign, confPct⟩ :: s.transcript) ∧
  s'.transcriptSigns = s.transcriptSigns ++ [sign] ∧
  s'.xpCalls = s.xpCalls ++ [10] ∧
  s'.trackCalls = s.trackCalls ++ [true]

/-- The spec's `progressFraction(experience, level)`, stated from the
spec's words for comparison with the source's `getProgress`:
`(experience - (level-1)*100) / 100`, clamped to `[0, 1]`. -/
def progressFraction (xp level : ℚ) : ℚ :=
  min (max ((xp - (level - 1) * 100) / 100) 0) 1

/-- The spec's `lastNDaysSeries(n, referenceDate)`, stated from the spec's
words for comparison with the source's `getLast7Days`: for each offset `i`
from `n-1` down to `0`, the count at `referenceDate - i` days (missing
dates count 0) with its day, oldest first. -/
def lastNDaysSeries (n : ℕ) (refDate : ℤ) (counts : ℤ → ℕ) : List (ℕ × ℤ) :=
  ((List.range n).reverse).map fun i =>
    (counts (refDate - (i : ℤ)), refDate - (i : ℤ))

/-! ## Claim theorems -/

/-- C2: for every `ProgressState` satisfying `level == floor(experience/100) + 1`
and every positive amount, both `addExperience` (`addXP`) and
`recomputeStreak` (`updateStreak`) preserve the invariant: the `level`
field stays the value of the formula at the current experience. -/
theorem claim_C2_level_invariant (d : GameData) (amount : ℕ) (t : ℤ)
    (hinv : d.level = d.xp / 100 + 1) (_hpos : 0 < amount) :
    (Gamification.addXPData amount d).level
        = (Gamification.addXPData amount d).xp / 100 + 1 ∧
    (Gamification.updateStreakData t d).level
        = (Gamification.updateStreakData t d).xp / 100 + 1 := by
  constructor
  · unfold Gamification.addXPData Gamification.getLevel
    dsimp only
    split
    · rfl
    · rename_i hlt
      have hmono : d.xp / 100 ≤ (d.xp + amount) / 100 :=
        Nat.div_le_div_right (Nat.le_add_right _ _)
      dsimp only
      omega
  · simpa [Gamification.updateStreakData] using hinv

/-- Witness for C2 at the concrete state `⟨0, 1, 0, 0⟩` and amount 250. -/
theorem claim_C2_level_invariant_witness :
    (Gamification.addXPData 250 ⟨0, 1, 0, 0⟩).level
        = (Gamification.addXPData 250 ⟨0, 1, 0, 0⟩).xp / 100 + 1 ∧
    (Gamification.updateStreakData 0 ⟨0, 1, 0, 0⟩).level
        = (Gamification.updateStreakData 0 ⟨0, 1, 0, 0⟩).xp / 100 + 1 :=
  claim_C2_level_invariant ⟨0, 1, 0, 0⟩ 250 0 (by decide) (by decide)

/-- C5: `recomputeStreak(today)` (`updateStreak`) on a state with
`lastActiveDate = D`: same day leaves the streak unchanged and is
idempotent, `D = today - 1` increments it by exactly 1, a gap of more than
one day resets it to 1, and in all cases `lastVisit` is rewritten to
`today`. -/
theorem claim_C5_streak_update (d : GameData) (today : ℤ) :
    (d.lastVisit = today → (Gamification.updateStreakData today d).streak = d.streak) ∧
    (d.lastVisit = today - 1 →
      (Gamification.updateStreakData today d).streak = d.streak + 1) ∧
    (d.lastVisit < today - 1 → (Gamification.updateStreakData today d).streak = 1) ∧
    (Gamification.updateStreakData today d).lastVisit = today ∧
    Gamification.updateStreakData today (Gamification.updateStreakData today d)
      = Gamification.updateStreakData today d := by
  refine ⟨fun h => ?_, fun h => ?_, fun h => ?_, rfl, ?_⟩
  · simp only [Gamification.updateStreakData]
    split_ifs <;> omega
  · simp only [Gamification.updateStreakData]
    split_ifs
    omega
  · simp only [Gamification.updateStreakData]
    split_ifs <;> omega
  · have h1 : ¬(today = today - 1) := by omega
    simp [Gamification.updateStreakData, h1]

/-- Witness for C5: the three date cases at concrete states (same day,
yesterday, a three-day gap), each obtained from the theorem. -/
theorem claim_C5_streak_update_witness :
    (Gamification.updateStreakData 11 ⟨0, 1, 5, 11⟩).streak = 5 ∧
    (Gamification.updateStreakData 11 ⟨0, 1, 5, 10⟩).streak = 6 ∧
    (Gamification.updateStreakData 11 ⟨0, 1, 5, 3⟩).streak = 1 :=
  ⟨(claim_C5_streak_update ⟨0, 1, 5, 11⟩ 11).1 (by decide),
   (claim_C5_streak_update ⟨0, 1, 5, 10⟩ 11).2.1 (by decide),
   (claim_C5_streak_update ⟨0, 1, 5, 3⟩ 11).2.2.1 (by decide)⟩

/-- C6 counterexample: on the first-ever run (no persisted record) the
default record already has `lastVisit = today`, so `updateStreak` takes the
same-day branch and the streak stays 0 — not 1 as the claim states. -/
theorem claim_C6_counterexample :
    Gamification.updateStreak 0 Stored.absent
      = .ok (.valid { xp := 0, level := 1, streak := 0, lastVisit := 0 }) ∧
    (GameData.streak { xp := 0, level := 1, streak := 0, lastVisit := 0 }) ≠ 1 := by
  constructor
  · rfl
  · decide

/-- C6 amended: on the first-ever run `recomputeStreak(today)` leaves the
streak at its default 0 (the default `lastVisit` is already `today`, so
the same-day branch applies); the streak first reaches 1 on the next
qualifying day. -/
theorem claim_C6_first_run_streak_zero (today : ℤ) :
    Gamification.updateStreak today Stored.absent
      = .ok (.valid { xp := 0, level := 1, streak := 0, lastVisit := today }) := by
  have h1 : ¬(today = today - 1) := by omega
  simp [Gamification.updateStreak, Gamification.getData,
    Gamification.updateStreakData, Except.map, h1]

/-- C3 counterexample: a corrupted persisted record makes both engines'
load raise (the `JSON.parse` exception propagates — there is no
try/catch), instead of being treated as absent and yielding defaults. -/
theorem claim_C3_counterexample :
    Gamification.getData Stored.corrupt 0 = .error "SyntaxError: JSON.parse" ∧
    Analytics.getData Stored.corrupt 0 = .error "SyntaxError: JSON.parse" :=
  ⟨rfl, rfl⟩

/-- C3 amended: a missing record is treated as absent and both engines
return their in-memory defaults, but a corrupted record (one `JSON.parse`
rejects) makes every load raise rather than fall back to defaults. -/
theorem claim_C3_absent_defaults_corrupt_raises (today now : ℤ) :
    Gamification.getData Stored.absent today
      = .ok { xp := 0, level := 1, streak := 0, lastVisit := today } ∧
    Analytics.getData Stored.absent now
      = .ok { totalSigns := 0, correctSigns := 0, practiceTime := 0,
              dailyProgress := fun _ => 0, sessionStart := now } ∧
    Gamification.getData Stored.corrupt today = .error "SyntaxError: JSON.parse" ∧
    Analytics.getData Stored.corrupt now = .error "SyntaxError: JSON.parse" :=
  ⟨rfl, rfl, rfl, rfl⟩

/-- C4 counterexample: at the scenario state (experience 250, level 3) the
source's progress function returns 50 — a percentage — not the claimed
fraction 0.5. -/
theorem claim_C4_counterexample :
    Gamification.getProgress 250 3 = 50 ∧
    Gamification.getProgress 250 3 ≠ 1/2 := by
  norm_num [Gamification.getProgress]

/-- C4 amended: the source's progress function is the claimed pure clamped
function expressed as a percentage: `getProgress` equals `100 *`
`progressFraction` (so it is clamped to `[0,100]`, not `[0,1]`), and the
scenario `addXP(250)` from no persisted state yields experience 250,
level 3, where `getProgress` returns `100 * 0.5 = 50`. -/
theorem claim_C4_progress_percent (xp level : ℚ) (t : ℤ) :
    Gamification.getProgress xp level = 100 * progressFraction xp level ∧
    Gamification.addXP 250 Stored.absent t
      = .ok (.valid { xp := 250, level := 3, streak := 0, lastVisit := t }) ∧
    Gamification.getProgress 250 3 = 100 * (1/2 : ℚ) := by
  refine ⟨?_, ?_, by norm_num [Gamification.getProgress]⟩
  · unfold Gamification.getProgress progressFraction
    dsimp only
    rw [(by ring : level * 100 - (level - 1) * 100 = (100:ℚ)),
        mul_min_of_nonneg _ _ (by norm_num : (0:ℚ) ≤ 100),
        mul_max_of_nonneg _ _ (by norm_num : (0:ℚ) ≤ 100),
        (by ring : (100:ℚ) * ((xp - (level - 1) * 100) / 100)
            = (xp - (level - 1) * 100) / 100 * 100)]
    norm_num
  · norm_num [Gamification.addXP, Gamification.getData,
      Gamification.addXPData, Gamification.getLevel, Except.map]

/-- Helper: when a sign is present, `Math.round(conf*100) >= 80` and the
sign is fresh, the tick takes the commit branch. -/
theorem pollTick_commit (t : ℤ) (s : AppState) (sign : String) (conf : ℚ)
    (h75 : (3:ℚ)/4 ≤ conf) (h80 : 80 ≤ jsRound (conf * 100))
    (hmem : sign ∉ s.transcriptSigns) :
    ModeSwitcher.pollTick t s ⟨some sign, conf⟩ =
      { s with
        transcript := List.take 20 (⟨sign, jsRound (conf * 100)⟩ :: s.transcript)
        game := Gamification.addXPData 10 s.game
        analytics := Analytics.trackSignData true t s.analytics
        xpCalls := s.xpCalls ++ [10]
        trackCalls := s.trackCalls ++ [true]
        transcriptSigns := s.transcriptSigns ++ [sign] } := by
  unfold ModeSwitcher.pollTick
  dsimp only
  rw [if_pos h75, if_pos ⟨h80, hmem⟩]

/-- Helper: a tick whose sign is already in the dedup set never commits:
the state is returned unchanged. -/
theorem pollTick_dup (t : ℤ) (s : AppState) (sign : String) (conf : ℚ)
    (hmem : sign ∈ s.transcriptSigns) :
    ModeSwitcher.pollTick t s ⟨some sign, conf⟩ = s := by
  unfold ModeSwitcher.pollTick
  dsimp only
  split_ifs with h75 hg
  · exact absurd hmem hg.2
  · rfl
  · rfl

/-- C1 counterexample: at confidence `0.796` (< 0.80) on a fresh label the
tick still commits — `Math.round(0.796 * 100) = 80` passes the code's
gate — refuting "a commit happens only if confidence is at least 0.80". -/
theorem claim_C1_counterexample :
    committed (ModeSwitcher.startState ⟨0, 1, 0, 0⟩ ⟨0, 0, 0, fun _ => 0, 0⟩)
      (ModeSwitcher.pollTick 0
        (ModeSwitcher.startState ⟨0, 1, 0, 0⟩ ⟨0, 0, 0, fun _ => 0, 0⟩)
        ⟨some "hello", 199/250⟩) "hello" 80 ∧
    ¬ ((4:ℚ)/5 ≤ 199/250) := by
  constructor
  · have h80 : jsRound ((199:ℚ)/250 * 100) = 80 := by norm_num [jsRound]
    rw [pollTick_commit 0 _ "hello" (199/250) (by norm_num)
      (by rw [h80]) (by simp [ModeSwitcher.startState]), committed, h80]
    exact ⟨rfl, rfl, rfl, rfl⟩
  · norm_num

/-- C1 amended: for a poll tick with a present label, the detection is
committed (transcript entry appended, label added to the dedup set,
`addXP(10)` and `trackSign(true)` invoked) if and only if
`Math.round(confidence * 100) ≥ 80` — i.e. confidence at least 0.795, not
0.80 — and the label is not already in the session's accepted set; a
first-seen label with confidence 0.81 still produces exactly one commit
and any sample rounding below 80 produces none. -/
theorem claim_C1_commit_gate (s : AppState) (t : ℤ) (sample : DetectionSample)
    (sign : String) (hs : sample.sign = some sign) :
    committed s (ModeSwitcher.pollTick t s sample) sign
        (jsRound (sample.conf * 100)) ↔
      80 ≤ jsRound (sample.conf * 100) ∧ sign ∉ s.transcriptSigns := by
  obtain ⟨osign, conf⟩ := sample
  obtain rfl : osign = some sign := hs
  dsimp only at *
  constructor
  · intro hcom
    by_cases h75 : (3:ℚ)/4 ≤ conf
    · by_cases hg : 80 ≤ jsRound (conf * 100) ∧ sign ∉ s.transcriptSigns
      · exact hg
      · rw [show ModeSwitcher.pollTick t s ⟨some sign, conf⟩ = s by
          unfold ModeSwitcher.pollTick; dsimp only
          rw [if_pos h75, if_neg hg]] at hcom
        obtain ⟨-, -, hxp, -⟩ := hcom
        simp at hxp
    · rw [show ModeSwitcher.pollTick t s ⟨some sign, conf⟩ = s by
        unfold ModeSwitcher.pollTick; dsimp only
        rw [if_neg h75]] at hcom
      obtain ⟨-, -, hxp, -⟩ := hcom
      simp at hxp
  · rintro ⟨h80, hmem⟩
    have h75 : (3:ℚ)/4 ≤ conf := by
      have hle : ((80:ℤ) : ℚ) ≤ conf * 100 + 1/2 := Int.le_floor.mp h80
      push_cast at hle
      linarith
    rw [pollTick_commit t s sign conf h75 h80 hmem, committed]
    exact ⟨rfl, rfl, rfl, rfl⟩

/-- Witness for C1 (amended): a first-seen label at confidence 0.81 in a
fresh session commits, through the gate theorem. -/
theorem claim_C1_commit_gate_witness :
    committed (ModeSwitcher.startState ⟨0, 1, 0, 0⟩ ⟨0, 0, 0, fun _ => 0, 0⟩)
      (ModeSwitcher.pollTick 0
        (ModeSwitcher.startState ⟨0, 1, 0, 0⟩ ⟨0, 0, 0, fun _ => 0, 0⟩)
        ⟨some "A", 81/100⟩) "A" (jsRound ((81:ℚ)/100 * 100)) :=
  (claim_C1_commit_gate _ 0 ⟨some "A", 81/100⟩ "A" rfl).mpr
    ⟨by norm_num [jsRound], by simp [ModeSwitcher.startState]⟩

/-- C7: from any session state where the label is not yet accepted, two
consecutive ticks at confidence 0.9 on that label produce exactly one
committed transcript entry and exactly one `addXP(10)` call (the second
tick changes nothing); `clearTranscript()` empties the transcript and the
dedup set without touching the engine states, after which the same
label/confidence commits a second time. -/
theorem claim_C7_dedup (t : ℤ) (s : AppState) (L : String)
    (h : L ∉ s.transcriptSigns) :
    committed s (ModeSwitcher.pollTick t s ⟨some L, 9/10⟩) L 90 ∧
    ModeSwitcher.pollTick t (ModeSwitcher.pollTick t s ⟨some L, 9/10⟩)
        ⟨some L, 9/10⟩
      = ModeSwitcher.pollTick t s ⟨some L, 9/10⟩ ∧
    committed (clearTranscript (ModeSwitcher.pollTick t s ⟨some L, 9/10⟩))
      (ModeSwitcher.pollTick t
        (clearTranscript (ModeSwitcher.pollTick t s ⟨some L, 9/10⟩))
        ⟨some L, 9/10⟩) L 90 ∧
    (clearTranscript (ModeSwitcher.pollTick t s ⟨some L, 9/10⟩)).game
      = (ModeSwitcher.pollTick t s ⟨some L, 9/10⟩).game ∧
    (clearTranscript (ModeSwitcher.pollTick t s ⟨some L, 9/10⟩)).analytics
      = (ModeSwitcher.pollTick t s ⟨some L, 9/10⟩).analytics := by
  have h90 : jsRound ((9:ℚ)/10 * 100) = 90 := by norm_num [jsRound]
  have h75 : (3:ℚ)/4 ≤ 9/10 := by norm_num
  have h80 : 80 ≤ jsRound ((9:ℚ)/10 * 100) := by rw [h90]; norm_num
  have hc1 := pollTick_commit t s L (9/10) h75 h80 h
  refine ⟨?_, ?_, ?_, ?_, ?_⟩
  · rw [hc1, committed, h90]
    exact ⟨rfl, rfl, rfl, rfl⟩
  · apply pollTick_dup
    rw [hc1]
    simp
  · rw [clearTranscript, hc1]
    dsimp only
    rw [pollTick_commit t _ L (9/10) h75 h80 (by simp), committed, h90]
    exact ⟨rfl, rfl, rfl, rfl⟩
  · rw [clearTranscript]
  · rw [clearTranscript]

/-- Witness for C7 at a fresh session and the label "A". -/
theorem claim_C7_dedup_witness :
    committed (ModeSwitcher.startState ⟨0, 1, 0, 0⟩ ⟨0, 0, 0, fun _ => 0, 0⟩)
      (ModeSwitcher.pollTick 0
        (ModeSwitcher.startState ⟨0, 1, 0, 0⟩ ⟨0, 0, 0, fun _ => 0, 0⟩)
        ⟨some "A", 9/10⟩) "A" 90 ∧
    ModeSwitcher.pollTick 0
        (ModeSwitcher.pollTick 0
          (ModeSwitcher.startState ⟨0, 1, 0, 0⟩ ⟨0, 0, 0, fun _ => 0, 0⟩)
          ⟨some "A", 9/10⟩) ⟨some "A", 9/10⟩
      = ModeSwitcher.pollTick 0
          (ModeSwitcher.startState ⟨0, 1, 0, 0⟩ ⟨0, 0, 0, fun _ => 0, 0⟩)
          ⟨some "A", 9/10⟩ :=
  ⟨(claim_C7_dedup 0 _ "A" (by simp [ModeSwitcher.startState])).1,
   (claim_C7_dedup 0 _ "A" (by simp [ModeSwitcher.startState])).2.1⟩

/-- C8: `getAccuracy` returns 0 when there are no events, otherwise
`Math.round(correctSigns / totalSigns * 100)`, an integer in `0..100`
whenever `correctSigns ≤ totalSigns`; and from the default state seven
`trackSign(true)` followed by three `trackSign(false)` yield accuracy 70. -/
theorem claim_C8_accuracy (d : AnalyticsData)
    (h : d.correctSigns ≤ d.totalSigns) :
    (d.totalSigns = 0 → Analytics.getAccuracy d = 0) ∧
    (d.totalSigns ≠ 0 → Analytics.getAccuracy d
        = jsRound ((d.correctSigns : ℚ) / (d.totalSigns : ℚ) * 100)) ∧
    0 ≤ Analytics.getAccuracy d ∧ Analytics.getAccuracy d ≤ 100 ∧
    Analytics.getAccuracy
      (Analytics.trackSignData false 0 (Analytics.trackSignData false 0
        (Analytics.trackSignData false 0 (Analytics.trackSignData true 0
        (Analytics.trackSignData true 0 (Analytics.trackSignData true 0
        (Analytics.trackSignData true 0 (Analytics.trackSignData true 0
        (Analytics.trackSignData true 0 (Analytics.trackSignData true 0
          { totalSigns := 0, correctSigns := 0, practiceTime := 0,
            dailyProgress := fun _ => 0, sessionStart := 0 })))))))))) = 70 := by
  refine ⟨fun h0 => by simp [Analytics.getAccuracy, h0],
    fun h0 => by simp [Analytics.getAccuracy, h0], ?_, ?_,
    by norm_num [Analytics.getAccuracy, Analytics.trackSignData, jsRound]⟩
  · unfold Analytics.getAccuracy
    split_ifs with h0
    · omega
    · have ht : (0:ℚ) < (d.totalSigns : ℚ) := by
        exact_mod_cast Nat.pos_of_ne_zero h0
      have hr0 : (0:ℚ) ≤ (d.correctSigns : ℚ) / (d.totalSigns : ℚ) :=
        div_nonneg (by positivity) (le_of_lt ht)
      unfold jsRound
      exact Int.le_floor.mpr (by push_cast; linarith)
  · unfold Analytics.getAccuracy
    split_ifs with h0
    · omega
    · have ht : (0:ℚ) < (d.totalSigns : ℚ) := by
        exact_mod_cast Nat.pos_of_ne_zero h0
      have hr : (d.correctSigns : ℚ) / (d.totalSigns : ℚ) ≤ 1 := by
        rw [div_le_one ht]
        exact_mod_cast h
      unfold jsRound
      calc ⌊(d.correctSigns : ℚ) / (d.totalSigns : ℚ) * 100 + 1/2⌋
          ≤ ⌊(201:ℚ)/2⌋ := Int.floor_le_floor (by linarith)
        _ = 100 := by norm_num

/-- Witness for C8: the zero-event case and the `7/10` case, both through
the accuracy theorem. -/
theorem claim_C8_accuracy_witness :
    Analytics.getAccuracy
      { totalSigns := 0, correctSigns := 0, practiceTime := 0,
        dailyProgress := fun _ => 0, sessionStart := 0 } = 0 ∧
    0 ≤ Analytics.getAccuracy
      { totalSigns := 10, correctSigns := 7, practiceTime := 0,
        dailyProgress := fun _ => 0, sessionStart := 0 } ∧
    Analytics.getAccuracy
      { totalSigns := 10, correctSigns := 7, practiceTime := 0,
        dailyProgress := fun _ => 0, sessionStart := 0 } ≤ 100 :=
  ⟨(claim_C8_accuracy _ (by decide)).1 rfl,
   (claim_C8_accuracy ⟨10, 7, 0, fun _ => 0, 0⟩ (by decide)).2.2.1,
   (claim_C8_accuracy ⟨10, 7, 0, fun _ => 0, 0⟩ (by decide)).2.2.2.1⟩

/-- C9: the source's `getLast7Days` agrees with the spec's
`lastNDaysSeries` at `n = 7` (offsets `n-1` down to 0, missing dates 0,
oldest first), and at `n = 3` with only `D-1 ↦ 5` recorded the series is
`[0, 5, 0]` for days `D-2, D-1, D`. -/
theorem claim_C9_last_days_series (now : ℤ) (d : AnalyticsData) (D : ℤ) :
    Analytics.getLast7Days now d = lastNDaysSeries 7 now d.dailyProgress ∧
    lastNDaysSeries 3 D (fun day => if day = D - 1 then 5 else 0)
      = [(0, D - 2), (5, D - 1), (0, D)] := by
  refine ⟨rfl, ?_⟩
  have h2 : ¬(D - 2 = D - 1) := by omega
  have h0 : ¬(D = D - 1) := by omega
  simp [lastNDaysSeries, List.range_succ, h2, h0]

/-- Helper: a poll tick preserves `correctSigns = totalSigns` of the
analytics state, because the only analytics mutation on the commit path is
`trackSign(true)`. -/
theorem pollTick_correct_eq_total (t : ℤ) (s : AppState)
    (sample : DetectionSample)
    (hinv : s.analytics.correctSigns = s.analytics.totalSigns) :
    (ModeSwitcher.pollTick t s sample).analytics.correctSigns
      = (ModeSwitcher.pollTick t s sample).analytics.totalSigns := by
  unfold ModeSwitcher.pollTick
  cases sample.sign with
  | none => exact hinv
  | some sign =>
    dsimp only
    split_ifs with h75 hg
    · simp [Analytics.trackSignData, hinv]
    · exact hinv
    · exact hinv

/-- Helper: a poll tick only ever appends `true` to the `trackSign` call
log. -/
theorem pollTick_trackCalls_true (t : ℤ) (s : AppState)
    (sample : DetectionSample)
    (hall : ∀ b ∈ s.trackCalls, b = true) :
    ∀ b ∈ (ModeSwitcher.pollTick t s sample).trackCalls, b = true := by
  unfold ModeSwitcher.pollTick
  cases sample.sign with
  | none => exact hall
  | some sign =>
    dsimp only
    split_ifs with h75 hg
    · intro b hb
      dsimp only at hb
      rcases List.mem_append.mp hb with h1 | h1
      · exact hall b h1
      · simpa using h1
    · exact hall
    · exact hall

/-- Helper: over a whole polling run both tick invariants persist. -/
theorem pollRun_correct_eq_total (t : ℤ) (samples : List DetectionSample)
    (s : AppState)
    (hinv : s.analytics.correctSigns = s.analytics.totalSigns)
    (hall : ∀ b ∈ s.trackCalls, b = true) :
    (ModeSwitcher.pollRun t s samples).analytics.correctSigns
      = (ModeSwitcher.pollRun t s samples).analytics.totalSigns ∧
    ∀ b ∈ (ModeSwitcher.pollRun t s samples).trackCalls, b = true := by
  induction samples generalizing s with
  | nil => exact ⟨hinv, hall⟩
  | cons a as ih =>
    exact ih (ModeSwitcher.pollTick t s a)
      (pollTick_correct_eq_total t s a hinv)
      (pollTick_trackCalls_true t s a hall)

/-- C10: every commit of the detection path invokes `trackSign` with
`isCorrect = true` only, so in any state reachable from the defaults by
poll ticks alone `correctSigns` equals `totalSigns`, and `getAccuracy`
returns 100 as soon as any event was tracked. -/
theorem claim_C10_commit_path_correct (t n0 : ℤ) (g : GameData)
    (samples : List DetectionSample)
    (h : 0 < (ModeSwitcher.pollRun t
        (ModeSwitcher.startState g
          { totalSigns := 0, correctSigns := 0, practiceTime := 0,
            dailyProgress := fun _ => 0, sessionStart := n0 })
        samples).analytics.totalSigns) :
    (ModeSwitcher.pollRun t
        (ModeSwitcher.startState g
          { totalSigns := 0, correctSigns := 0, practiceTime := 0,
            dailyProgress := fun _ => 0, sessionStart := n0 })
        samples).analytics.correctSigns
      = (ModeSwitcher.pollRun t
          (ModeSwitcher.startState g
            { totalSigns := 0, correctSigns := 0, practiceTime := 0,
              dailyProgress := fun _ => 0, sessionStart := n0 })
          samples).analytics.totalSigns ∧
    Analytics.getAccuracy
      (ModeSwitcher.pollRun t
        (ModeSwitcher.startState g
          { totalSigns := 0, correctSigns := 0, practiceTime := 0,
            dailyProgress := fun _ => 0, sessionStart := n0 })
        samples).analytics = 100 ∧
    ∀ b ∈ (ModeSwitcher.pollRun t
        (ModeSwitcher.startState g
          { totalSigns := 0, correctSigns := 0, practiceTime := 0,
            dailyProgress := fun _ => 0, sessionStart := n0 })
        samples).trackCalls, b = true := by
  obtain ⟨hinv, hall⟩ := pollRun_correct_eq_total t samples
    (ModeSwitcher.startState g
      { totalSigns := 0, correctSigns := 0, practiceTime := 0,
        dailyProgress := fun _ => 0, sessionStart := n0 }) rfl (by simp [ModeSwitcher.startState])
  refine ⟨hinv, ?_, hall⟩
  unfold Analytics.getAccuracy
  rw [if_neg (by omega), hinv, div_self (by exact_mod_cast Nat.pos_iff_ne_zero.mp h)]
  norm_num [jsRound]

/-- Witness for C10: one committing tick at confidence 0.9 from the
defaults leaves accuracy at exactly 100. -/
theorem claim_C10_commit_path_correct_witness :
    Analytics.getAccuracy
      (ModeSwitcher.pollRun 0
        (ModeSwitcher.startState ⟨0, 1, 0, 0⟩
          { totalSigns := 0, correctSigns := 0, practiceTime := 0,
            dailyProgress := fun _ => 0, sessionStart := 0 })
        [⟨some "A", 9/10⟩]).analytics = 100 :=
  (claim_C10_commit_path_correct 0 0 ⟨0, 1, 0, 0⟩ [⟨some "A", 9/10⟩]
    (by
      show 0 < (List.foldl (ModeSwitcher.pollTick 0) _ _).analytics.totalSigns
      simp only [List.foldl]
      rw [pollTick_commit 0 _ "A" (9/10) (by norm_num)
        (by norm_num [jsRound]) (by simp [ModeSwitcher.startState])]
      simp [Analytics.trackSignData])).2.1
